import Mathlib

/-!
# Setup.cpp: the DeviceHive installer bootstrapper

A shallow embedding of `src/Setup/Setup/Setup.cpp`.  The program is a single
sequence of Win32 calls.  The operating system is not part of the source, so
its answers are inputs (`Env`); everything the program does with those answers
is translated from `_tWinMain` and `ShowMessage`.

Strings are sequences of `TCHAR`; one `Char` stands for one `TCHAR`.
-/

namespace Setup

/-! ## Constants of the source -/

/-- The Windows constant `MAX_PATH`. -/
def MAX_PATH : Nat := 260

/-- The macro `ERRMSG_ERROR`. -/
def ERRMSG_ERROR : String := "DeviceHive"

/-- The macro `ERRMSG_GETTEMPNAME`. -/
def ERRMSG_GETTEMPNAME : String := "Failed to get temporary file name."

/-- The macro `ERRMSG_WRITETEMP`. -/
def ERRMSG_WRITETEMP : String := "Failed to write to temporary file."

/-- The macro `ERRMSG_RUNPARAMS`. -/
def ERRMSG_RUNPARAMS : String := "Failed to define installation folder."

/-- The macro `MSG_NEWLINE`. -/
def MSG_NEWLINE : String := "\r\n"

/-- The macro `COMMAND_LINE`. -/
def COMMAND_LINE : String := "msiexec /i %s %s"

/-! ## The C runtime: formatted output and bounded string copies -/

/-- An argument of a `printf`-style call: a string for `%s`, a `DWORD` for `%d`. -/
inductive FmtArg where
  | str (v : String)
  | dword (v : Nat)

/-- The value a 32-bit `DWORD` has when `%d` reads it as a 32-bit `int`: `ShowMessage`
hands its `DWORD error_code` to the format `Error code: %d`. -/
def asInt32 (v : Nat) : Int :=
  if v % 2 ^ 32 < 2 ^ 31 then Int.ofNat (v % 2 ^ 32) else Int.ofNat (v % 2 ^ 32) - 2 ^ 32

/-- Decimal text of a signed integer, as `%d` prints it. -/
def decimal : Int → String
  | Int.ofNat n => Nat.repr n
  | Int.negSucc n => "-" ++ Nat.repr (n + 1)

/-- Expansion of a format string: `%s` takes the next string argument, `%d` the next
`DWORD` argument read as `int`; every other character is copied. -/
def formatArgs : List Char → List FmtArg → List Char
  | [], _ => []
  | '%' :: 's' :: rest, FmtArg.str v :: args => v.data ++ formatArgs rest args
  | '%' :: 'd' :: rest, FmtArg.dword v :: args => (decimal (asInt32 v)).data ++ formatArgs rest args
  | c :: rest, args => c :: formatArgs rest args

/-- The secure formatter `swprintf_s(buffer, sizeOfBuffer, format, ...)`: the text and its
terminator must fit in `sizeOfBuffer` characters.  Otherwise the runtime raises the
invalid-parameter condition (`none`); the source installs no handler for it, so it ends the
process. -/
def swprintf_s (sizeOfBuffer : Nat) (format : String) (args : List FmtArg) : Option String :=
  let out := String.mk (formatArgs format.data args)
  if out.length + 1 ≤ sizeOfBuffer then some out else none

/-- The `TCHAR` name `_stprintf_s` of `swprintf_s`. -/
def _stprintf_s (sizeOfBuffer : Nat) (format : String) (args : List FmtArg) : Option String :=
  swprintf_s sizeOfBuffer format args

/-- The secure copy `_tcscpy_s(dest, size, src)`: the new content of `dest`. -/
def _tcscpy_s (numberOfElements : Nat) (src : String) : Option String :=
  if src.length + 1 ≤ numberOfElements then some src else none

/-- The secure append `_tcscat_s(dest, size, src)`: the new content of `dest`. -/
def _tcscat_s (dest : String) (numberOfElements : Nat) (src : String) : Option String :=
  if dest.length + src.length + 1 ≤ numberOfElements then some (dest ++ src) else none

/-! ## The operating system -/

/-- A file handle: the path of the open file, or `none` for `INVALID_HANDLE_VALUE`. -/
abbrev HANDLE := Option String

/-- The file system: a map from paths to byte sequences. -/
abbrev FileSystem := String → Option (List Nat)

/-- The file system with the content of one path replaced (`none` removes the file). -/
def FileSystem.set (fs : FileSystem) (path : String) (content : Option (List Nat)) : FileSystem :=
  fun q => if q = path then content else fs q

/-- A Win32 call of the program, with its arguments and the result the program reads. -/
inductive Call where
  | FindResource
  | LoadResource
  | LockResource
  | SizeofResource (size : Nat)
  | GetTempPath (path : String)
  | GetTempFileName (lpPathName lpPrefixString : String) (uUnique : Nat) (name : Option String)
  | CreateFile (lpFileName : String) (handle : HANDLE)
  | WriteFile (hFile : HANDLE) (nNumberOfBytesToWrite : Nat) (bytesWritten : Nat)
  | CloseHandle (hObject : HANDLE)
  | DeleteFile (lpFileName : String)
  | CreateProcess (lpCommandLine : String) (result : Bool)
  | GetLastError (code : Nat)
  | MessageBox (lpText lpCaption : String)
  deriving DecidableEq

/-- One entry of the trace: the call and the file system right after it. -/
structure Event where
  call : Call
  fs : FileSystem

/-- What the program can observe or change: the file system, the calling thread's
last-error value, and the calls made so far, oldest first. -/
structure State where
  fs : FileSystem
  lastError : Nat
  trace : List Event

/-- The state at process start. -/
def State.init (fs : FileSystem) (lastError : Nat) : State :=
  { fs := fs, lastError := lastError, trace := [] }

/-- The calls of a trace, oldest first. -/
def State.calls (s : State) : List Call := s.trace.map Event.call

/-- Record a call that leaves the file system `fs` and, if `err` is given, overwrites
the last-error value. -/
def State.step (s : State) (c : Call) (fs : FileSystem) (err : Option Nat) : State :=
  { fs := fs, lastError := err.getD s.lastError, trace := s.trace ++ [{ call := c, fs := fs }] }

/-- The answers of the operating system to one run.  Each `err*` field is the last-error
value that call sets, `none` when it leaves the value alone. -/
structure Env where
  /-- The bytes of the embedded `MSI` resource. -/
  payload : List Nat
  /-- The directory `GetTempPath` stores. -/
  tempPath : String
  /-- The unique part of the name `GetTempFileName` generates; `none` when it returns 0. -/
  tempFile : Option String
  /-- Whether `CreateFile` returns a valid handle. -/
  createFile : Bool
  /-- How many bytes the device takes from `WriteFile`. -/
  writeFile : Nat
  /-- Whether `CreateProcess` succeeds. -/
  createProcess : Bool
  errGetTempFileName : Option Nat
  errCreateFile : Option Nat
  errWriteFile : Option Nat
  errCloseHandle : Option Nat
  errDeleteFile : Option Nat
  errCreateProcess : Option Nat

/-- The calls `FindResource`, `LoadResource`, `LockResource`, `SizeofResource`: the bytes of
the resource and their number (`msiAddress`, `msiSize`).  The last-error value these calls
and `GetTempPath` leave behind is the value the run starts with. -/
def loadPayload (env : Env) (s : State) : List Nat × Nat × State :=
  let s := s.step Call.FindResource s.fs none
  let s := s.step Call.LoadResource s.fs none
  let s := s.step Call.LockResource s.fs none
  let s := s.step (Call.SizeofResource env.payload.length) s.fs none
  (env.payload, env.payload.length, s)

/-- The call `GetTempPath(MAX_PATH, lpPathBuffer)`: the content of the buffer. -/
def GetTempPath (env : Env) (s : State) : String × State :=
  (env.tempPath, s.step (Call.GetTempPath env.tempPath) s.fs none)

/-- The call `GetTempFileName(lpPathName, lpPrefixString, 0, out)`.  With `uUnique = 0` a
successful call creates an empty file named directory, prefix, unique part; a failed call
returns 0 (`none`) and creates nothing. -/
def GetTempFileName (env : Env) (lpPathName lpPrefixString : String) (s : State) :
    Option String × State :=
  match env.tempFile with
  | none =>
    (none, s.step (Call.GetTempFileName lpPathName lpPrefixString 0 none) s.fs
      env.errGetTempFileName)
  | some unique =>
    let name := lpPathName ++ lpPrefixString ++ unique
    (some name, s.step (Call.GetTempFileName lpPathName lpPrefixString 0 (some name))
      (s.fs.set name (some [])) env.errGetTempFileName)

/-- The call `CreateFile(name, GENERIC_READ | GENERIC_WRITE, 0, NULL, CREATE_ALWAYS, ...)`:
on success the file exists and is empty. -/
def CreateFile (env : Env) (lpFileName : String) (s : State) : HANDLE × State :=
  if env.createFile then
    (some lpFileName, s.step (Call.CreateFile lpFileName (some lpFileName))
      (s.fs.set lpFileName (some [])) env.errCreateFile)
  else
    (none, s.step (Call.CreateFile lpFileName none) s.fs env.errCreateFile)

/-- The call `WriteFile(hFile, lpBuffer, n, &bytesWritten, NULL)` on a handle just opened:
the device takes at most `n` bytes, which become the content of the file; on an invalid
handle nothing is written and `bytesWritten` is 0. -/
def WriteFile (env : Env) (hFile : HANDLE) (lpBuffer : List Nat) (n : Nat) (s : State) :
    Nat × State :=
  match hFile with
  | none => (0, s.step (Call.WriteFile none n 0) s.fs env.errWriteFile)
  | some path =>
    let k := min env.writeFile n
    (k, s.step (Call.WriteFile (some path) n k) (s.fs.set path (some (lpBuffer.take k)))
      env.errWriteFile)

/-- The call `CloseHandle(hObject)`. -/
def CloseHandle (env : Env) (hObject : HANDLE) (s : State) : State :=
  s.step (Call.CloseHandle hObject) s.fs env.errCloseHandle

/-- The call `DeleteFile(lpFileName)`: afterwards no file has that path. -/
def DeleteFile (env : Env) (lpFileName : String) (s : State) : State :=
  s.step (Call.DeleteFile lpFileName) (s.fs.set lpFileName none) env.errDeleteFile

/-- The call `CreateProcess(NULL, cmdLine, ...)`. -/
def CreateProcess (env : Env) (lpCommandLine : String) (s : State) : Bool × State :=
  (env.createProcess,
    s.step (Call.CreateProcess lpCommandLine env.createProcess) s.fs env.errCreateProcess)

/-- The call `GetLastError()`: the last-error value as a `DWORD`. -/
def GetLastError (s : State) : Nat × State :=
  (s.lastError % 2 ^ 32, s.step (Call.GetLastError (s.lastError % 2 ^ 32)) s.fs none)

/-- The call `MessageBox(NULL, lpText, lpCaption, MB_OK | MB_ICONERROR)`. -/
def MessageBox (lpText lpCaption : String) (s : State) : State :=
  s.step (Call.MessageBox lpText lpCaption) s.fs none

/-! ## The program -/

/-- How a run ends: `_tWinMain` returns a status, or the C runtime ends the process on an
invalid parameter. -/
inductive Outcome where
  | returned (status : Int)
  | invalidParameter
  deriving DecidableEq

/-- The function `ShowMessage` of the source. -/
def ShowMessage (lpText lpCaption : String) (error_code : Nat) (s : State) : Option State :=
  match _stprintf_s MAX_PATH "Error code: %d" [FmtArg.dword error_code] with
  | none => none
  | some message =>
    let message_size := lpText.length + MSG_NEWLINE.length + message.length + 1
    match _tcscpy_s message_size lpText with
    | none => none
    | some lpMessage =>
      match _tcscat_s lpMessage message_size MSG_NEWLINE with
      | none => none
      | some lpMessage =>
        match _tcscat_s lpMessage message_size message with
        | none => none
        | some lpMessage => some (MessageBox lpMessage lpCaption s)

/-- The function `_tWinMain` of the source. -/
def _tWinMain (env : Env) (lpCmdLine : String) (s : State) : Outcome × State :=
  let (msiAddress, msiSize, s) := loadPayload env s
  let (lpPathBuffer, s) := GetTempPath env s
  match GetTempFileName env lpPathBuffer "NEW" s with
  | (none, s) =>
    let (error_code, s) := GetLastError s
    match ShowMessage ERRMSG_GETTEMPNAME ERRMSG_ERROR error_code s with
    | none => (Outcome.invalidParameter, s)
    | some s => (Outcome.returned 1, s)
  | (some szDeviceHiveSetupMsi, s) =>
    let (hTempFile, s) := CreateFile env szDeviceHiveSetupMsi s
    let szTempName := ""
    let (bytesWritten, s) := WriteFile env hTempFile msiAddress msiSize s
    if msiSize ≠ bytesWritten then
      let s := CloseHandle env hTempFile s
      let s := DeleteFile env szTempName s
      let (error_code, s) := GetLastError s
      match ShowMessage ERRMSG_WRITETEMP ERRMSG_ERROR error_code s with
      | none => (Outcome.invalidParameter, s)
      | some s => (Outcome.returned 1, s)
    else
      let s := CloseHandle env hTempFile s
      match swprintf_s MAX_PATH COMMAND_LINE
          [FmtArg.str szDeviceHiveSetupMsi, FmtArg.str lpCmdLine] with
      | none => (Outcome.invalidParameter, s)
      | some cmdLine =>
        match CreateProcess env cmdLine s with
        | (false, s) =>
          let s := DeleteFile env szTempName s
          let (error_code, s) := GetLastError s
          match ShowMessage ERRMSG_RUNPARAMS ERRMSG_ERROR error_code s with
          | none => (Outcome.invalidParameter, s)
          | some s => (Outcome.returned 1, s)
        | (true, s) => (Outcome.returned 0, s)

/-! ## Reading a trace -/

/-- The dialogs shown, as text and caption, oldest first. -/
def dialogs (calls : List Call) : List (String × String) :=
  calls.filterMap fun c =>
    match c with
    | Call.MessageBox lpText lpCaption => some (lpText, lpCaption)
    | _ => none

/-- The command lines handed to `CreateProcess`, oldest first. -/
def spawned (calls : List Call) : List String :=
  calls.filterMap fun c =>
    match c with
    | Call.CreateProcess lpCommandLine _ => some lpCommandLine
    | _ => none

/-- The paths handed to `DeleteFile`, oldest first. -/
def deleted (calls : List Call) : List String :=
  calls.filterMap fun c =>
    match c with
    | Call.DeleteFile lpFileName => some lpFileName
    | _ => none

/-- The handles `CreateFile` returned, oldest first. -/
def opened (calls : List Call) : List HANDLE :=
  calls.filterMap fun c =>
    match c with
    | Call.CreateFile _ handle => some handle
    | _ => none

/-- The handles handed to `CloseHandle`, oldest first. -/
def closed (calls : List Call) : List HANDLE :=
  calls.filterMap fun c =>
    match c with
    | Call.CloseHandle hObject => some hObject
    | _ => none

/-- The result of the first `GetTempFileName` call: `some none` when it returned 0. -/
def tempNameResult (calls : List Call) : Option (Option String) :=
  calls.findSome? fun c =>
    match c with
    | Call.GetTempFileName _ _ _ name => some name
    | _ => none

/-- The byte count the first `WriteFile` call reported. -/
def writeResult (calls : List Call) : Option Nat :=
  calls.findSome? fun c =>
    match c with
    | Call.WriteFile _ _ bytesWritten => some bytesWritten
    | _ => none

/-- The result of the first `CreateProcess` call. -/
def spawnResult (calls : List Call) : Option Bool :=
  calls.findSome? fun c =>
    match c with
    | Call.CreateProcess _ result => some result
    | _ => none

/-- The text `text` contains the message `msg`, letter case apart. -/
def containsMessage (text msg : String) : Prop :=
  msg.data.map Char.toLower <:+: text.data.map Char.toLower

instance (text msg : String) : Decidable (containsMessage text msg) := by
  unfold containsMessage
  infer_instance

/-- The path of the temporary file the run generates when `GetTempFileName` succeeds with
the unique part `unique`. -/
def tempFileName (env : Env) (unique : String) : String :=
  env.tempPath ++ "NEW" ++ unique

/-! ## Concrete runs -/

/-- The empty file system. -/
def emptyFS : FileSystem := fun _ => none

/-- A run in which everything succeeds: a 10-byte payload, written in full. -/
def envOk : Env :=
  { payload := [77, 83, 73, 32, 1, 2, 3, 4, 5, 6], tempPath := "C:\\Temp\\",
    tempFile := some "1A2B.tmp", createFile := true, writeFile := 10, createProcess := true,
    errGetTempFileName := none, errCreateFile := some 183, errWriteFile := none,
    errCloseHandle := none, errDeleteFile := some 3, errCreateProcess := none }

/-- A run in which `GetTempFileName` fails with the last-error value 5. -/
def envNoTempName : Env :=
  { envOk with tempFile := none, errGetTempFileName := some 5 }

/-- A run on a full disk: `WriteFile` takes 4 of the 10 bytes and sets the last-error value
112 (`ERROR_DISK_FULL`); `DeleteFile` of the empty path sets 3 (`ERROR_PATH_NOT_FOUND`). -/
def envDiskFull : Env :=
  { envOk with writeFile := 4, errWriteFile := some 112 }

/-- A run in which `CreateProcess` fails with the last-error value 2. -/
def envSpawnFails : Env :=
  { envOk with createProcess := false, errCreateProcess := some 2 }

/-- A run in which `GetTempFileName` fails and sets the last-error value `0x80070005`. -/
def envHighCode : Env :=
  { envOk with tempFile := none, errGetTempFileName := some 2147942405 }

/-- An argument string of 300 characters. -/
def longArgs : String := String.mk (List.replicate 300 'a')

/-! ## The five paths through `_tWinMain`

The states below describe, path by path, what a run has done when it ends; the
theorems `run_*` prove that `_tWinMain` ends there. -/

/-- The handle `CreateFile` returns for the temp file with unique part `unique`. -/
def tempHandle (env : Env) (unique : String) : HANDLE :=
  if env.createFile then some (tempFileName env unique) else none

/-- The byte count `WriteFile` stores in `bytesWritten`. -/
def bytesWritten (env : Env) : Nat :=
  if env.createFile then min env.writeFile env.payload.length else 0

/-- The file system once the temp file holds `content`. -/
def fsWith (env : Env) (fs0 : FileSystem) (unique : String) (content : List Nat) : FileSystem :=
  fs0.set (tempFileName env unique) (some content)

/-- The last-error value after the calls up to `WriteFile`. -/
def errAfterWrite (env : Env) (e0 : Nat) : Nat :=
  env.errWriteFile.getD (env.errCreateFile.getD (env.errGetTempFileName.getD e0))

/-- The trace up to `GetTempPath`. -/
def traceStart (env : Env) (fs0 : FileSystem) : List Event :=
  [⟨Call.FindResource, fs0⟩, ⟨Call.LoadResource, fs0⟩, ⟨Call.LockResource, fs0⟩,
   ⟨Call.SizeofResource env.payload.length, fs0⟩, ⟨Call.GetTempPath env.tempPath, fs0⟩]

/-- The trace up to `CloseHandle` when `GetTempFileName` succeeds. -/
def traceClose (env : Env) (fs0 : FileSystem) (unique : String) : List Event :=
  traceStart env fs0 ++
  [⟨Call.GetTempFileName env.tempPath "NEW" 0 (some (tempFileName env unique)),
      fsWith env fs0 unique []⟩,
   ⟨Call.CreateFile (tempFileName env unique) (tempHandle env unique), fsWith env fs0 unique []⟩,
   ⟨Call.WriteFile (tempHandle env unique) env.payload.length (bytesWritten env),
      fsWith env fs0 unique (env.payload.take (bytesWritten env))⟩,
   ⟨Call.CloseHandle (tempHandle env unique),
      fsWith env fs0 unique (env.payload.take (bytesWritten env))⟩]

/-- The dialog text `ShowMessage` builds. -/
def dialogText (lpText : String) (code : Nat) : String :=
  lpText ++ MSG_NEWLINE ++ ("Error code: " ++ decimal (asInt32 code))

/-- The command line `swprintf_s` builds from `COMMAND_LINE`. -/
def commandLine (path args : String) : String :=
  "msiexec /i " ++ path ++ " " ++ args

/-- The file system right after the write, when `GetTempFileName` succeeds. -/
def fsWritten (env : Env) (fs0 : FileSystem) (unique : String) : FileSystem :=
  fsWith env fs0 unique (env.payload.take (bytesWritten env))

/-- The end of a run in which `GetTempFileName` fails. -/
def endTempNameFailed (env : Env) (fs0 : FileSystem) (e0 : Nat) : Outcome × State :=
  (Outcome.returned 1,
    { fs := fs0, lastError := env.errGetTempFileName.getD e0,
      trace := traceStart env fs0 ++
        [⟨Call.GetTempFileName env.tempPath "NEW" 0 none, fs0⟩,
         ⟨Call.GetLastError (env.errGetTempFileName.getD e0 % 2 ^ 32), fs0⟩,
         ⟨Call.MessageBox
            (dialogText ERRMSG_GETTEMPNAME (env.errGetTempFileName.getD e0 % 2 ^ 32))
            ERRMSG_ERROR, fs0⟩] })

/-- The last-error value `GetLastError` reads in the write failure branch. -/
def errWriteBranch (env : Env) (e0 : Nat) : Nat :=
  env.errDeleteFile.getD (env.errCloseHandle.getD (errAfterWrite env e0))

/-- The end of a run in which the byte count written differs from the payload size. -/
def endWriteFailed (env : Env) (fs0 : FileSystem) (e0 : Nat) (unique : String) :
    Outcome × State :=
  (Outcome.returned 1,
    { fs := (fsWritten env fs0 unique).set "" none,
      lastError := errWriteBranch env e0,
      trace := traceClose env fs0 unique ++
        [⟨Call.DeleteFile "", (fsWritten env fs0 unique).set "" none⟩,
         ⟨Call.GetLastError (errWriteBranch env e0 % 2 ^ 32),
            (fsWritten env fs0 unique).set "" none⟩,
         ⟨Call.MessageBox (dialogText ERRMSG_WRITETEMP (errWriteBranch env e0 % 2 ^ 32))
            ERRMSG_ERROR, (fsWritten env fs0 unique).set "" none⟩] })

/-- The end of a run in which the command line does not fit its buffer. -/
def endOverflow (env : Env) (fs0 : FileSystem) (e0 : Nat) (unique : String) :
    Outcome × State :=
  (Outcome.invalidParameter,
    { fs := fsWritten env fs0 unique,
      lastError := env.errCloseHandle.getD (errAfterWrite env e0),
      trace := traceClose env fs0 unique })

/-- The last-error value `GetLastError` reads in the spawn failure branch. -/
def errSpawnBranch (env : Env) (e0 : Nat) : Nat :=
  env.errDeleteFile.getD (env.errCreateProcess.getD
    (env.errCloseHandle.getD (errAfterWrite env e0)))

/-- The end of a run in which `CreateProcess` fails. -/
def endSpawnFailed (env : Env) (lpCmdLine : String) (fs0 : FileSystem) (e0 : Nat)
    (unique : String) : Outcome × State :=
  (Outcome.returned 1,
    { fs := (fsWritten env fs0 unique).set "" none,
      lastError := errSpawnBranch env e0,
      trace := traceClose env fs0 unique ++
        [⟨Call.CreateProcess (commandLine (tempFileName env unique) lpCmdLine) false,
            fsWritten env fs0 unique⟩,
         ⟨Call.DeleteFile "", (fsWritten env fs0 unique).set "" none⟩,
         ⟨Call.GetLastError (errSpawnBranch env e0 % 2 ^ 32),
            (fsWritten env fs0 unique).set "" none⟩,
         ⟨Call.MessageBox (dialogText ERRMSG_RUNPARAMS (errSpawnBranch env e0 % 2 ^ 32))
            ERRMSG_ERROR, (fsWritten env fs0 unique).set "" none⟩] })

/-- The end of a run in which `CreateProcess` succeeds. -/
def endSpawned (env : Env) (lpCmdLine : String) (fs0 : FileSystem) (e0 : Nat)
    (unique : String) : Outcome × State :=
  (Outcome.returned 0,
    { fs := fsWritten env fs0 unique,
      lastError := env.errCreateProcess.getD (env.errCloseHandle.getD (errAfterWrite env e0)),
      trace := traceClose env fs0 unique ++
        [⟨Call.CreateProcess (commandLine (tempFileName env unique) lpCmdLine) true,
            fsWritten env fs0 unique⟩] })

/-! ## Facts about the C runtime model -/

theorem decimal_asInt32_length (e : Nat) : (decimal (asInt32 e)).length ≤ 11 := by
  have hlt : e % 2 ^ 32 < 2 ^ 32 := Nat.mod_lt _ (by norm_num)
  unfold asInt32
  split
  · simp only [decimal]
    have := Nat.repr_length (e % 2 ^ 32) 10 (by norm_num) (by omega)
    omega
  · rename_i h
    have hneg : Int.ofNat (e % 2 ^ 32) - 2 ^ 32 = Int.negSucc (2 ^ 32 - e % 2 ^ 32 - 1) := by
      rw [Int.negSucc_eq]
      simp only [Int.ofNat_eq_coe]
      omega
    rw [hneg]
    simp only [decimal, String.length_append]
    have := Nat.repr_length (2 ^ 32 - e % 2 ^ 32 - 1 + 1) 10 (by norm_num) (by omega)
    have h1 : "-".length = 1 := by decide
    omega

theorem formatArgs_errorCode (e : Nat) :
    String.mk (formatArgs "Error code: %d".data [FmtArg.dword e])
      = "Error code: " ++ decimal (asInt32 e) := by
  apply String.ext
  simp [formatArgs]

theorem formatArgs_commandLine (p a : String) :
    String.mk (formatArgs COMMAND_LINE.data [FmtArg.str p, FmtArg.str a])
      = "msiexec /i " ++ p ++ " " ++ a := by
  apply String.ext
  simp [formatArgs, COMMAND_LINE]

theorem stprintf_s_errorCode (e : Nat) :
    _stprintf_s MAX_PATH "Error code: %d" [FmtArg.dword e]
      = some ("Error code: " ++ decimal (asInt32 e)) := by
  have hlen := decimal_asInt32_length e
  have h12 : "Error code: ".length = 12 := by decide
  have hfit : ("Error code: " ++ decimal (asInt32 e)).length + 1 ≤ MAX_PATH := by
    simp only [String.length_append, MAX_PATH]
    omega
  unfold _stprintf_s swprintf_s
  rw [formatArgs_errorCode]
  exact if_pos hfit

theorem tcscpy_s_fits (n : Nat) (src : String) (h : src.length + 1 ≤ n) :
    _tcscpy_s n src = some src := if_pos h

theorem tcscat_s_fits (dest : String) (n : Nat) (src : String)
    (h : dest.length + src.length + 1 ≤ n) : _tcscat_s dest n src = some (dest ++ src) :=
  if_pos h

theorem ShowMessage_eq (lpText lpCaption : String) (e : Nat) (s : State) :
    ShowMessage lpText lpCaption e s
      = some (MessageBox (lpText ++ MSG_NEWLINE ++ ("Error code: " ++ decimal (asInt32 e)))
          lpCaption s) := by
  unfold ShowMessage
  rw [stprintf_s_errorCode]
  dsimp only
  rw [tcscpy_s_fits _ _ (by omega)]
  dsimp only
  rw [tcscat_s_fits _ _ _ (by omega)]
  dsimp only
  rw [tcscat_s_fits _ _ _ (by simp only [String.length_append]; omega)]

theorem containsMessage_append (m rest msg : String)
    (h : msg.data.map Char.toLower <:+: m.data.map Char.toLower) :
    containsMessage (m ++ rest) msg := by
  unfold containsMessage
  obtain ⟨a, b, hab⟩ := h
  refine ⟨a, b ++ rest.data.map Char.toLower, ?_⟩
  simp only [String.data_append, List.map_append, ← hab, List.append_assoc]

theorem containsMessage_GETTEMPNAME (rest : String) :
    containsMessage (ERRMSG_GETTEMPNAME ++ rest) "failed to get temporary file name" :=
  containsMessage_append _ _ _ ⟨[], ['.'], by decide⟩

theorem containsMessage_WRITETEMP (rest : String) :
    containsMessage (ERRMSG_WRITETEMP ++ rest) "failed to write to temporary file" :=
  containsMessage_append _ _ _ ⟨[], ['.'], by decide⟩

theorem containsMessage_RUNPARAMS (rest : String) :
    containsMessage (ERRMSG_RUNPARAMS ++ rest) "failed to define installation folder" :=
  containsMessage_append _ _ _ ⟨[], ['.'], by decide⟩

/-! ## The runs of `_tWinMain`, branch by branch -/

theorem FileSystem.set_set (fs : FileSystem) (path : String) (a b : Option (List Nat)) :
    (fs.set path a).set path b = fs.set path b := by
  funext q
  simp only [FileSystem.set]
  split <;> rfl

theorem swprintf_s_commandLine (path args : String) :
    swprintf_s MAX_PATH COMMAND_LINE [FmtArg.str path, FmtArg.str args]
      = if (commandLine path args).length + 1 ≤ MAX_PATH then some (commandLine path args)
        else none := by
  unfold swprintf_s
  rw [formatArgs_commandLine]
  rfl

theorem run_tempName_failed (env : Env) (lpCmdLine : String) (fs0 : FileSystem) (e0 : Nat)
    (hT : env.tempFile = none) :
    _tWinMain env lpCmdLine (State.init fs0 e0) = endTempNameFailed env fs0 e0 := by
  simp [endTempNameFailed, _tWinMain, loadPayload, GetTempPath, GetTempFileName, hT,
    GetLastError, ShowMessage_eq, MessageBox, State.step, State.init, traceStart, dialogText]

theorem run_write_failed (env : Env) (lpCmdLine : String) (fs0 : FileSystem) (e0 : Nat)
    (unique : String) (hT : env.tempFile = some unique)
    (hW : env.payload.length ≠ bytesWritten env) :
    _tWinMain env lpCmdLine (State.init fs0 e0) = endWriteFailed env fs0 e0 unique := by
  rcases hC : env.createFile with _ | _
  · simp [bytesWritten, hC] at hW
    simp [endWriteFailed, fsWritten, errWriteBranch, _tWinMain, loadPayload, GetTempPath, GetTempFileName, hT, hC, hW,
      GetLastError, ShowMessage_eq, MessageBox, State.step, State.init, traceStart, traceClose,
      dialogText, CreateFile, WriteFile, CloseHandle, DeleteFile, CreateProcess, tempHandle,
      bytesWritten, fsWith, tempFileName, errAfterWrite, FileSystem.set_set]
  · simp [bytesWritten, hC] at hW
    simp [endWriteFailed, fsWritten, errWriteBranch, _tWinMain, loadPayload, GetTempPath, GetTempFileName, hT, hC, hW,
      GetLastError, ShowMessage_eq, MessageBox, State.step, State.init, traceStart, traceClose,
      dialogText, CreateFile, WriteFile, CloseHandle, DeleteFile, CreateProcess, tempHandle,
      bytesWritten, fsWith, tempFileName, errAfterWrite, FileSystem.set_set]

theorem run_overflow (env : Env) (lpCmdLine : String) (fs0 : FileSystem) (e0 : Nat)
    (unique : String) (hT : env.tempFile = some unique)
    (hW : env.payload.length = bytesWritten env)
    (hS : ¬ (commandLine (tempFileName env unique) lpCmdLine).length + 1 ≤ MAX_PATH) :
    _tWinMain env lpCmdLine (State.init fs0 e0) = endOverflow env fs0 e0 unique := by
  have hS2 := swprintf_s_commandLine (tempFileName env unique) lpCmdLine
  rw [if_neg hS] at hS2
  simp only [tempFileName] at hS2
  rcases hC : env.createFile with _ | _
  · simp [bytesWritten, hC] at hW
    simp [endOverflow, fsWritten, _tWinMain, loadPayload, GetTempPath, GetTempFileName, hT, hC, hW, hS2,
      GetLastError, ShowMessage_eq, MessageBox, State.step, State.init, traceStart, traceClose,
      dialogText, CreateFile, WriteFile, CloseHandle, DeleteFile, CreateProcess, tempHandle,
      bytesWritten, fsWith, tempFileName, errAfterWrite, FileSystem.set_set]
  · simp [bytesWritten, hC] at hW
    simp [endOverflow, fsWritten, _tWinMain, loadPayload, GetTempPath, GetTempFileName, hT, hC, hW, hS2,
      GetLastError, ShowMessage_eq, MessageBox, State.step, State.init, traceStart, traceClose,
      dialogText, CreateFile, WriteFile, CloseHandle, DeleteFile, CreateProcess, tempHandle,
      bytesWritten, fsWith, tempFileName, errAfterWrite, FileSystem.set_set]

theorem run_spawn_failed (env : Env) (lpCmdLine : String) (fs0 : FileSystem) (e0 : Nat)
    (unique : String) (hT : env.tempFile = some unique)
    (hW : env.payload.length = bytesWritten env)
    (hS : (commandLine (tempFileName env unique) lpCmdLine).length + 1 ≤ MAX_PATH)
    (hP : env.createProcess = false) :
    _tWinMain env lpCmdLine (State.init fs0 e0) = endSpawnFailed env lpCmdLine fs0 e0 unique := by
  have hS2 := swprintf_s_commandLine (tempFileName env unique) lpCmdLine
  rw [if_pos hS] at hS2
  simp only [tempFileName] at hS2
  rcases hC : env.createFile with _ | _
  · simp [bytesWritten, hC] at hW
    simp [endSpawnFailed, fsWritten, errSpawnBranch, _tWinMain, loadPayload, GetTempPath, GetTempFileName, hT, hC, hW, hS2, hP,
      GetLastError, ShowMessage_eq, MessageBox, State.step, State.init, traceStart, traceClose,
      dialogText, CreateFile, WriteFile, CloseHandle, DeleteFile, CreateProcess, tempHandle,
      bytesWritten, fsWith, tempFileName, errAfterWrite, FileSystem.set_set]
  · simp [bytesWritten, hC] at hW
    simp [endSpawnFailed, fsWritten, errSpawnBranch, _tWinMain, loadPayload, GetTempPath, GetTempFileName, hT, hC, hW, hS2, hP,
      GetLastError, ShowMessage_eq, MessageBox, State.step, State.init, traceStart, traceClose,
      dialogText, CreateFile, WriteFile, CloseHandle, DeleteFile, CreateProcess, tempHandle,
      bytesWritten, fsWith, tempFileName, errAfterWrite, FileSystem.set_set]

theorem run_spawned (env : Env) (lpCmdLine : String) (fs0 : FileSystem) (e0 : Nat)
    (unique : String) (hT : env.tempFile = some unique)
    (hW : env.payload.length = bytesWritten env)
    (hS : (commandLine (tempFileName env unique) lpCmdLine).length + 1 ≤ MAX_PATH)
    (hP : env.createProcess = true) :
    _tWinMain env lpCmdLine (State.init fs0 e0) = endSpawned env lpCmdLine fs0 e0 unique := by
  have hS2 := swprintf_s_commandLine (tempFileName env unique) lpCmdLine
  rw [if_pos hS] at hS2
  simp only [tempFileName] at hS2
  rcases hC : env.createFile with _ | _
  · simp [bytesWritten, hC] at hW
    simp [endSpawned, fsWritten, _tWinMain, loadPayload, GetTempPath, GetTempFileName, hT, hC, hW, hS2, hP,
      GetLastError, ShowMessage_eq, MessageBox, State.step, State.init, traceStart, traceClose,
      dialogText, CreateFile, WriteFile, CloseHandle, DeleteFile, CreateProcess, tempHandle,
      bytesWritten, fsWith, tempFileName, errAfterWrite, FileSystem.set_set]
  · simp [bytesWritten, hC] at hW
    simp [endSpawned, fsWritten, _tWinMain, loadPayload, GetTempPath, GetTempFileName, hT, hC, hW, hS2, hP,
      GetLastError, ShowMessage_eq, MessageBox, State.step, State.init, traceStart, traceClose,
      dialogText, CreateFile, WriteFile, CloseHandle, DeleteFile, CreateProcess, tempHandle,
      bytesWritten, fsWith, tempFileName, errAfterWrite, FileSystem.set_set]

/-- Every run takes one of the five paths through `_tWinMain`. -/
theorem run_cases (env : Env) (lpCmdLine : String) (fs0 : FileSystem) (e0 : Nat) :
    (env.tempFile = none ∧
      _tWinMain env lpCmdLine (State.init fs0 e0) = endTempNameFailed env fs0 e0) ∨
    (∃ unique, env.tempFile = some unique ∧ env.payload.length ≠ bytesWritten env ∧
      _tWinMain env lpCmdLine (State.init fs0 e0) = endWriteFailed env fs0 e0 unique) ∨
    (∃ unique, env.tempFile = some unique ∧ env.payload.length = bytesWritten env ∧
      ¬ (commandLine (tempFileName env unique) lpCmdLine).length + 1 ≤ MAX_PATH ∧
      _tWinMain env lpCmdLine (State.init fs0 e0) = endOverflow env fs0 e0 unique) ∨
    (∃ unique, env.tempFile = some unique ∧ env.payload.length = bytesWritten env ∧
      (commandLine (tempFileName env unique) lpCmdLine).length + 1 ≤ MAX_PATH ∧
      env.createProcess = false ∧
      _tWinMain env lpCmdLine (State.init fs0 e0) = endSpawnFailed env lpCmdLine fs0 e0 unique) ∨
    (∃ unique, env.tempFile = some unique ∧ env.payload.length = bytesWritten env ∧
      (commandLine (tempFileName env unique) lpCmdLine).length + 1 ≤ MAX_PATH ∧
      env.createProcess = true ∧
      _tWinMain env lpCmdLine (State.init fs0 e0) = endSpawned env lpCmdLine fs0 e0 unique) := by
  rcases hT : env.tempFile with _ | unique
  · exact Or.inl ⟨rfl, run_tempName_failed env lpCmdLine fs0 e0 hT⟩
  · by_cases hW : env.payload.length = bytesWritten env
    · by_cases hS : (commandLine (tempFileName env unique) lpCmdLine).length + 1 ≤ MAX_PATH
      · rcases hP : env.createProcess with _ | _
        · exact Or.inr (Or.inr (Or.inr (Or.inl
            ⟨unique, rfl, hW, hS, rfl, run_spawn_failed env lpCmdLine fs0 e0 unique hT hW hS hP⟩)))
        · exact Or.inr (Or.inr (Or.inr (Or.inr
            ⟨unique, rfl, hW, hS, rfl, run_spawned env lpCmdLine fs0 e0 unique hT hW hS hP⟩)))
      · exact Or.inr (Or.inr (Or.inl
          ⟨unique, rfl, hW, hS, run_overflow env lpCmdLine fs0 e0 unique hT hW hS⟩))
    · exact Or.inr (Or.inl ⟨unique, rfl, hW, run_write_failed env lpCmdLine fs0 e0 unique hT hW⟩)

/-! ## Exit status -/

/-- C1: a run of `_tWinMain` that returns has status 0 exactly when `GetTempFileName`
succeeded, `WriteFile` reported as many bytes as the payload has, and `CreateProcess`
succeeded; every other returning run has status 1. -/
theorem exit_status (env : Env) (lpCmdLine : String) (fs0 : FileSystem) (e0 : Nat)
    (status : Int)
    (h : (_tWinMain env lpCmdLine (State.init fs0 e0)).1 = Outcome.returned status) :
    (status = 0 ↔
      ((∃ name, tempNameResult (_tWinMain env lpCmdLine (State.init fs0 e0)).2.calls
          = some (some name)) ∧
        writeResult (_tWinMain env lpCmdLine (State.init fs0 e0)).2.calls
          = some env.payload.length ∧
        spawnResult (_tWinMain env lpCmdLine (State.init fs0 e0)).2.calls = some true)) ∧
    (status ≠ 0 → status = 1) := by
  rcases run_cases env lpCmdLine fs0 e0 with ⟨hT, hr⟩ | ⟨u, hT, hW, hr⟩ | ⟨u, hT, hW, hS, hr⟩ |
    ⟨u, hT, hW, hS, hP, hr⟩ | ⟨u, hT, hW, hS, hP, hr⟩
  · rw [hr] at h ⊢
    simp [endTempNameFailed] at h
    subst h
    simp [endTempNameFailed, State.calls, traceStart, tempNameResult]
  · rw [hr] at h ⊢
    simp [endWriteFailed] at h
    subst h
    simp [endWriteFailed, State.calls, traceStart, traceClose, tempNameResult, writeResult,
      spawnResult, Ne.symm hW]
  · rw [hr] at h
    simp [endOverflow] at h
  · rw [hr] at h ⊢
    simp [endSpawnFailed] at h
    subst h
    simp [endSpawnFailed, State.calls, traceStart, traceClose, tempNameResult, writeResult,
      spawnResult]
  · rw [hr] at h ⊢
    simp [endSpawned] at h
    subst h
    simp [endSpawned, State.calls, traceStart, traceClose, tempNameResult, writeResult,
      spawnResult, hW]

theorem tempFileName_ne_empty (env : Env) (unique : String) :
    "" ≠ tempFileName env unique := by
  intro h
  have hlen := congrArg String.length h
  simp only [tempFileName, String.length_append] at hlen
  have h3 : "NEW".length = 3 := by decide
  have h0 : "".length = 0 := by decide
  omega

theorem fsWritten_tempFile (env : Env) (fs0 : FileSystem) (unique : String) :
    fsWritten env fs0 unique (tempFileName env unique)
      = some (env.payload.take (bytesWritten env)) := by
  simp [fsWritten, fsWith, FileSystem.set]

theorem fsWritten_delete_tempFile (env : Env) (fs0 : FileSystem) (unique : String) :
    ((fsWritten env fs0 unique).set "" none) (tempFileName env unique)
      = some (env.payload.take (bytesWritten env)) := by
  have hne := tempFileName_ne_empty env unique
  simp [fsWritten, fsWith, FileSystem.set, Ne.symm hne]

/-! ## The temp-name failure branch -/

/-- C3: when `GetTempFileName` fails the run returns 1 after exactly the calls listed:
one dialog, titled `DeviceHive`, whose text is `ERRMSG_GETTEMPNAME`, a line break and the
error code (so it contains "failed to get temporary file name", letter case apart); no
file is created or written, nothing is deleted, no process is spawned, and the file
system is left as it was. -/
theorem tempName_failure (env : Env) (lpCmdLine : String) (fs0 : FileSystem) (e0 : Nat)
    (h : tempNameResult (_tWinMain env lpCmdLine (State.init fs0 e0)).2.calls = some none) :
    (_tWinMain env lpCmdLine (State.init fs0 e0)).1 = Outcome.returned 1 ∧
    ∃ code text,
      (_tWinMain env lpCmdLine (State.init fs0 e0)).2.calls =
        [Call.FindResource, Call.LoadResource, Call.LockResource,
         Call.SizeofResource env.payload.length, Call.GetTempPath env.tempPath,
         Call.GetTempFileName env.tempPath "NEW" 0 none,
         Call.GetLastError code, Call.MessageBox text ERRMSG_ERROR] ∧
      text = ERRMSG_GETTEMPNAME ++ MSG_NEWLINE ++ ("Error code: " ++ decimal (asInt32 code)) ∧
      containsMessage text "failed to get temporary file name" ∧
      dialogs (_tWinMain env lpCmdLine (State.init fs0 e0)).2.calls = [(text, "DeviceHive")] ∧
      opened (_tWinMain env lpCmdLine (State.init fs0 e0)).2.calls = [] ∧
      writeResult (_tWinMain env lpCmdLine (State.init fs0 e0)).2.calls = none ∧
      deleted (_tWinMain env lpCmdLine (State.init fs0 e0)).2.calls = [] ∧
      spawned (_tWinMain env lpCmdLine (State.init fs0 e0)).2.calls = [] ∧
      (_tWinMain env lpCmdLine (State.init fs0 e0)).2.fs = fs0 := by
  rcases run_cases env lpCmdLine fs0 e0 with ⟨hT, hr⟩ | ⟨u, hT, hW, hr⟩ | ⟨u, hT, hW, hS, hr⟩ |
    ⟨u, hT, hW, hS, hP, hr⟩ | ⟨u, hT, hW, hS, hP, hr⟩
  · rw [hr]
    refine ⟨rfl, _, _, rfl, rfl, ?_, ?_, ?_, ?_, ?_, ?_, rfl⟩
    · show containsMessage (ERRMSG_GETTEMPNAME ++ MSG_NEWLINE ++ _) _
      rw [String.append_assoc]
      exact containsMessage_GETTEMPNAME _
    · simp [endTempNameFailed, State.calls, traceStart, dialogs, dialogText, ERRMSG_ERROR]
    · simp [endTempNameFailed, State.calls, traceStart, opened]
    · simp [endTempNameFailed, State.calls, traceStart, writeResult]
    · simp [endTempNameFailed, State.calls, traceStart, deleted]
    · simp [endTempNameFailed, State.calls, traceStart, spawned]
  · rw [hr] at h
    simp [endWriteFailed, State.calls, traceStart, traceClose, tempNameResult] at h
  · rw [hr] at h
    simp [endOverflow, State.calls, traceStart, traceClose, tempNameResult] at h
  · rw [hr] at h
    simp [endSpawnFailed, State.calls, traceStart, traceClose, tempNameResult] at h
  · rw [hr] at h
    simp [endSpawned, State.calls, traceStart, traceClose, tempNameResult] at h

/-! ## The write failure branch -/

/-- C2: when the byte count `WriteFile` reports differs from the payload size the run
returns 1 after exactly the calls listed: one dialog, titled `DeviceHive`, whose text is
`ERRMSG_WRITETEMP`, a line break and the error code (so it contains "failed to write to
temporary file", letter case apart); no process is spawned; the one `DeleteFile` call gets
the empty path `szTempName`, which is not the path of the temp file; and the temp file
still exists at the end, with the content it had right after the write. -/
theorem write_failure (env : Env) (lpCmdLine : String) (fs0 : FileSystem) (e0 : Nat) (k : Nat)
    (hk : writeResult (_tWinMain env lpCmdLine (State.init fs0 e0)).2.calls = some k) (hne : k ≠ env.payload.length) :
    (_tWinMain env lpCmdLine (State.init fs0 e0)).1 = Outcome.returned 1 ∧
    ∃ unique hTempFile code text,
      (_tWinMain env lpCmdLine (State.init fs0 e0)).2.calls =
        [Call.FindResource, Call.LoadResource, Call.LockResource,
         Call.SizeofResource env.payload.length, Call.GetTempPath env.tempPath,
         Call.GetTempFileName env.tempPath "NEW" 0 (some (env.tempPath ++ "NEW" ++ unique)),
         Call.CreateFile (env.tempPath ++ "NEW" ++ unique) hTempFile,
         Call.WriteFile hTempFile env.payload.length k,
         Call.CloseHandle hTempFile, Call.DeleteFile "",
         Call.GetLastError code, Call.MessageBox text ERRMSG_ERROR] ∧
      text = ERRMSG_WRITETEMP ++ MSG_NEWLINE ++ ("Error code: " ++ decimal (asInt32 code)) ∧
      containsMessage text "failed to write to temporary file" ∧
      dialogs (_tWinMain env lpCmdLine (State.init fs0 e0)).2.calls = [(text, "DeviceHive")] ∧
      spawned (_tWinMain env lpCmdLine (State.init fs0 e0)).2.calls = [] ∧
      deleted (_tWinMain env lpCmdLine (State.init fs0 e0)).2.calls = [""] ∧
      "" ≠ env.tempPath ++ "NEW" ++ unique ∧
      (_tWinMain env lpCmdLine (State.init fs0 e0)).2.fs (env.tempPath ++ "NEW" ++ unique) = some (env.payload.take k) ∧
      ∀ ev ∈ (_tWinMain env lpCmdLine (State.init fs0 e0)).2.trace, ev.call = Call.WriteFile hTempFile env.payload.length k →
        ev.fs (env.tempPath ++ "NEW" ++ unique) = some (env.payload.take k) := by
  rcases run_cases env lpCmdLine fs0 e0 with ⟨hT, hr⟩ | ⟨u, hT, hW, hr⟩ | ⟨u, hT, hW, hS, hr⟩ |
    ⟨u, hT, hW, hS, hP, hr⟩ | ⟨u, hT, hW, hS, hP, hr⟩
  · rw [hr] at hk
    simp [endTempNameFailed, State.calls, traceStart, writeResult] at hk
  · rw [hr] at hk ⊢
    simp [endWriteFailed, State.calls, traceStart, traceClose, writeResult] at hk
    subst hk
    refine ⟨rfl, u, tempHandle env u, errWriteBranch env e0 % 2 ^ 32,
      dialogText ERRMSG_WRITETEMP (errWriteBranch env e0 % 2 ^ 32), rfl, rfl, ?_, ?_, ?_, ?_,
      tempFileName_ne_empty env u, fsWritten_delete_tempFile env fs0 u, ?_⟩
    · show containsMessage (ERRMSG_WRITETEMP ++ MSG_NEWLINE ++ _) _
      rw [String.append_assoc]
      exact containsMessage_WRITETEMP _
    · simp [endWriteFailed, State.calls, traceStart, traceClose, dialogs, dialogText,
        ERRMSG_ERROR]
    · simp [endWriteFailed, State.calls, traceStart, traceClose, spawned]
    · simp [endWriteFailed, State.calls, traceStart, traceClose, deleted]
    · intro ev hev hcall
      have hf := fsWritten_tempFile env fs0 u
      simp only [tempFileName, fsWritten] at hf
      simp [endWriteFailed, traceStart, traceClose] at hev
      rcases hev with rfl | rfl | rfl | rfl | rfl | rfl | rfl | rfl | rfl | rfl | rfl | rfl <;>
        simp_all
  · rw [hr] at hk
    simp [endOverflow, State.calls, traceStart, traceClose, writeResult] at hk
    omega
  · rw [hr] at hk
    simp [endSpawnFailed, State.calls, traceStart, traceClose, writeResult] at hk
    omega
  · rw [hr] at hk
    simp [endSpawned, State.calls, traceStart, traceClose, writeResult] at hk
    omega

/-! ## The spawn failure branch -/

/-- C4: when `CreateProcess` fails (it is only called after the payload was written in
full, as the `WriteFile` entry shows) the run returns 1 after exactly the calls listed: one
dialog, titled `DeviceHive`, whose text is
`ERRMSG_RUNPARAMS`, a line break and the error code (so it contains "failed to define
installation folder", letter case apart); the one `DeleteFile` call gets the empty path
`szTempName`, which is not the path of the temp file, and the temp file still holds the
payload at the end. -/
theorem spawn_failure (env : Env) (lpCmdLine : String) (fs0 : FileSystem) (e0 : Nat)
    (hs : spawnResult (_tWinMain env lpCmdLine (State.init fs0 e0)).2.calls = some false) :
    (_tWinMain env lpCmdLine (State.init fs0 e0)).1 = Outcome.returned 1 ∧
    ∃ unique hTempFile code text,
      (_tWinMain env lpCmdLine (State.init fs0 e0)).2.calls =
        [Call.FindResource, Call.LoadResource, Call.LockResource,
         Call.SizeofResource env.payload.length, Call.GetTempPath env.tempPath,
         Call.GetTempFileName env.tempPath "NEW" 0 (some (env.tempPath ++ "NEW" ++ unique)),
         Call.CreateFile (env.tempPath ++ "NEW" ++ unique) hTempFile,
         Call.WriteFile hTempFile env.payload.length env.payload.length,
         Call.CloseHandle hTempFile,
         Call.CreateProcess
           ("msiexec /i " ++ (env.tempPath ++ "NEW" ++ unique) ++ " " ++ lpCmdLine) false,
         Call.DeleteFile "",
         Call.GetLastError code, Call.MessageBox text ERRMSG_ERROR] ∧
      text = ERRMSG_RUNPARAMS ++ MSG_NEWLINE ++ ("Error code: " ++ decimal (asInt32 code)) ∧
      containsMessage text "failed to define installation folder" ∧
      dialogs (_tWinMain env lpCmdLine (State.init fs0 e0)).2.calls = [(text, "DeviceHive")] ∧
      deleted (_tWinMain env lpCmdLine (State.init fs0 e0)).2.calls = [""] ∧
      "" ≠ env.tempPath ++ "NEW" ++ unique ∧
      (_tWinMain env lpCmdLine (State.init fs0 e0)).2.fs (env.tempPath ++ "NEW" ++ unique) = some env.payload := by
  rcases run_cases env lpCmdLine fs0 e0 with ⟨hT, hr⟩ | ⟨u, hT, hW, hr⟩ | ⟨u, hT, hW, hS, hr⟩ |
    ⟨u, hT, hW, hS, hP, hr⟩ | ⟨u, hT, hW, hS, hP, hr⟩
  · rw [hr] at hs
    simp [endTempNameFailed, State.calls, traceStart, spawnResult] at hs
  · rw [hr] at hs
    simp [endWriteFailed, State.calls, traceStart, traceClose, spawnResult] at hs
  · rw [hr] at hs
    simp [endOverflow, State.calls, traceStart, traceClose, spawnResult] at hs
  · rw [hr]
    have hW2 : bytesWritten env = env.payload.length := hW.symm
    refine ⟨rfl, u, tempHandle env u, errSpawnBranch env e0 % 2 ^ 32,
      dialogText ERRMSG_RUNPARAMS (errSpawnBranch env e0 % 2 ^ 32), ?_, rfl, ?_, ?_, ?_,
      tempFileName_ne_empty env u, ?_⟩
    · simp [endSpawnFailed, State.calls, traceStart, traceClose, hW2, tempFileName, commandLine]
    · show containsMessage (ERRMSG_RUNPARAMS ++ MSG_NEWLINE ++ _) _
      rw [String.append_assoc]
      exact containsMessage_RUNPARAMS _
    · simp [endSpawnFailed, State.calls, traceStart, traceClose, dialogs, dialogText,
        ERRMSG_ERROR]
    · simp [endSpawnFailed, State.calls, traceStart, traceClose, deleted]
    · have hf := fsWritten_delete_tempFile env fs0 u
      rw [hW2, List.take_length] at hf
      exact hf
  · rw [hr] at hs
    simp [endSpawned, State.calls, traceStart, traceClose, spawnResult] at hs

/-! ## The command line -/

/-- C5: a command handed to `CreateProcess` is exactly `msiexec /i `, the path `p` that
`GetTempFileName` generated, one space, and the argument string `lpCmdLine` unchanged; it is
the only command of the run; for an empty argument string it ends in that one space; and
when `CreateProcess` succeeds the run returns 0 without a dialog. -/
theorem command_line (env : Env) (lpCmdLine : String) (fs0 : FileSystem) (e0 : Nat)
    (c : String) (hc : c ∈ spawned (_tWinMain env lpCmdLine (State.init fs0 e0)).2.calls) :
    ∃ p, tempNameResult (_tWinMain env lpCmdLine (State.init fs0 e0)).2.calls = some (some p) ∧
      c = "msiexec /i " ++ p ++ " " ++ lpCmdLine ∧
      spawned (_tWinMain env lpCmdLine (State.init fs0 e0)).2.calls = [c] ∧
      (lpCmdLine = "" → c = "msiexec /i " ++ p ++ " ") ∧
      (spawnResult (_tWinMain env lpCmdLine (State.init fs0 e0)).2.calls = some true →
        (_tWinMain env lpCmdLine (State.init fs0 e0)).1 = Outcome.returned 0 ∧ dialogs (_tWinMain env lpCmdLine (State.init fs0 e0)).2.calls = []) := by
  rcases run_cases env lpCmdLine fs0 e0 with ⟨hT, hr⟩ | ⟨u, hT, hW, hr⟩ | ⟨u, hT, hW, hS, hr⟩ |
    ⟨u, hT, hW, hS, hP, hr⟩ | ⟨u, hT, hW, hS, hP, hr⟩
  · rw [hr] at hc
    simp [endTempNameFailed, State.calls, traceStart, spawned] at hc
  · rw [hr] at hc
    simp [endWriteFailed, State.calls, traceStart, traceClose, spawned] at hc
  · rw [hr] at hc
    simp [endOverflow, State.calls, traceStart, traceClose, spawned] at hc
  · rw [hr] at hc ⊢
    simp [endSpawnFailed, State.calls, traceStart, traceClose, spawned] at hc
    subst hc
    refine ⟨tempFileName env u, ?_, rfl, ?_, ?_, ?_⟩
    · simp [endSpawnFailed, State.calls, traceStart, traceClose, tempNameResult]
    · simp [endSpawnFailed, State.calls, traceStart, traceClose, spawned]
    · intro ha
      subst ha
      simp [commandLine]
    · simp [endSpawnFailed, State.calls, traceStart, traceClose, spawnResult]
  · rw [hr] at hc ⊢
    simp [endSpawned, State.calls, traceStart, traceClose, spawned] at hc
    subst hc
    refine ⟨tempFileName env u, ?_, rfl, ?_, ?_, ?_⟩
    · simp [endSpawned, State.calls, traceStart, traceClose, tempNameResult]
    · simp [endSpawned, State.calls, traceStart, traceClose, spawned]
    · intro ha
      subst ha
      simp [commandLine]
    · simp [endSpawned, State.calls, traceStart, traceClose, spawnResult, dialogs]

/-! ## The temp file of a successful run -/

theorem fsWith_other (env : Env) (fs0 : FileSystem) (unique : String) (content : List Nat)
    (q : String) (hq : q ≠ env.tempPath ++ "NEW" ++ unique) :
    fsWith env fs0 unique content q = fs0 q := by
  simp [fsWith, FileSystem.set, tempFileName, hq]

theorem fsWith_tempFile (env : Env) (fs0 : FileSystem) (unique : String) (content : List Nat) :
    fsWith env fs0 unique content (env.tempPath ++ "NEW" ++ unique) = some content := by
  simp [fsWith, FileSystem.set, tempFileName]

/-- C8: a run that returns 0 makes exactly the calls listed.  Along them the file at the
generated path `p` is created empty, holds the whole payload right after the `WriteFile`
call (so it exists and has the payload's byte length) and keeps it through the remaining
calls to the end; nothing is deleted; and no other path of the file system ever changes. -/
theorem success_file (env : Env) (lpCmdLine : String) (fs0 : FileSystem) (e0 : Nat)
    (h : (_tWinMain env lpCmdLine (State.init fs0 e0)).1 = Outcome.returned 0) :
    ∃ unique hTempFile cmdLine,
      (_tWinMain env lpCmdLine (State.init fs0 e0)).2.calls =
        [Call.FindResource, Call.LoadResource, Call.LockResource,
         Call.SizeofResource env.payload.length, Call.GetTempPath env.tempPath,
         Call.GetTempFileName env.tempPath "NEW" 0 (some (env.tempPath ++ "NEW" ++ unique)),
         Call.CreateFile (env.tempPath ++ "NEW" ++ unique) hTempFile,
         Call.WriteFile hTempFile env.payload.length env.payload.length,
         Call.CloseHandle hTempFile,
         Call.CreateProcess cmdLine true] ∧
      (_tWinMain env lpCmdLine (State.init fs0 e0)).2.trace.map (fun ev => ev.fs (env.tempPath ++ "NEW" ++ unique)) =
        [fs0 (env.tempPath ++ "NEW" ++ unique), fs0 (env.tempPath ++ "NEW" ++ unique),
         fs0 (env.tempPath ++ "NEW" ++ unique), fs0 (env.tempPath ++ "NEW" ++ unique),
         fs0 (env.tempPath ++ "NEW" ++ unique),
         some [], some [], some env.payload, some env.payload, some env.payload] ∧
      (∀ ev ∈ (_tWinMain env lpCmdLine (State.init fs0 e0)).2.trace,
        ev.call = Call.WriteFile hTempFile env.payload.length env.payload.length →
        ∃ data, ev.fs (env.tempPath ++ "NEW" ++ unique) = some data ∧
          data.length = env.payload.length) ∧
      (_tWinMain env lpCmdLine (State.init fs0 e0)).2.fs (env.tempPath ++ "NEW" ++ unique) = some env.payload ∧
      deleted (_tWinMain env lpCmdLine (State.init fs0 e0)).2.calls = [] ∧
      (∀ q, q ≠ env.tempPath ++ "NEW" ++ unique →
        (_tWinMain env lpCmdLine (State.init fs0 e0)).2.fs q = fs0 q ∧ ∀ ev ∈ (_tWinMain env lpCmdLine (State.init fs0 e0)).2.trace, ev.fs q = fs0 q) := by
  rcases run_cases env lpCmdLine fs0 e0 with ⟨hT, hr⟩ | ⟨u, hT, hW, hr⟩ | ⟨u, hT, hW, hS, hr⟩ |
    ⟨u, hT, hW, hS, hP, hr⟩ | ⟨u, hT, hW, hS, hP, hr⟩
  · rw [hr] at h
    simp [endTempNameFailed] at h
  · rw [hr] at h
    simp [endWriteFailed] at h
  · rw [hr] at h
    simp [endOverflow] at h
  · rw [hr] at h
    simp [endSpawnFailed] at h
  · rw [hr]
    have hW2 : bytesWritten env = env.payload.length := hW.symm
    have hp := fsWith_tempFile env fs0 u
    refine ⟨u, tempHandle env u, commandLine (tempFileName env u) lpCmdLine, ?_, ?_, ?_, ?_, ?_,
      ?_⟩
    · simp [endSpawned, State.calls, traceStart, traceClose, hW2, tempFileName]
    · simp [endSpawned, traceStart, traceClose, fsWritten, hW2, hp]
    · intro ev hev hcall
      simp [endSpawned, traceStart, traceClose, fsWritten, hW2] at hev
      rcases hev with rfl | rfl | rfl | rfl | rfl | rfl | rfl | rfl | rfl | rfl <;>
        simp_all
    · simp [endSpawned, fsWritten, hW2, hp]
    · simp [endSpawned, State.calls, traceStart, traceClose, deleted]
    · intro q hq
      have ho := fun content => fsWith_other env fs0 u content q hq
      refine ⟨by simp [endSpawned, fsWritten, ho], ?_⟩
      intro ev hev
      simp [endSpawned, traceStart, traceClose, fsWritten] at hev
      rcases hev with rfl | rfl | rfl | rfl | rfl | rfl | rfl | rfl | rfl | rfl <;>
        simp [ho]

/-! ## The temp file handle -/

/-- If `x` does not occur in `l1`, every split of `l1 ++ l2` at an `x` has `l1` in front. -/
theorem split_after (l1 l2 pre post : List Call) (x : Call) (hno : x ∉ l1)
    (h : l1 ++ l2 = pre ++ x :: post) : ∃ t, pre = l1 ++ t := by
  induction l1 generalizing pre with
  | nil => exact ⟨pre, rfl⟩
  | cons a l1 ih =>
    cases pre with
    | nil =>
      simp only [List.cons_append, List.nil_append, List.cons.injEq] at h
      exact absurd h.1.symm (fun hx => hno (hx ▸ List.mem_cons_self _ _))
    | cons b pre =>
      simp only [List.cons_append, List.cons.injEq] at h
      obtain ⟨t, ht⟩ := ih pre (fun hx => hno (List.mem_cons_of_mem _ hx)) h.2
      exact ⟨t, by rw [h.1, ht]; rfl⟩

theorem calls_traceClose (env : Env) (fs0 : FileSystem) (unique : String) :
    (traceClose env fs0 unique).map Event.call =
      [Call.FindResource, Call.LoadResource, Call.LockResource,
       Call.SizeofResource env.payload.length, Call.GetTempPath env.tempPath,
       Call.GetTempFileName env.tempPath "NEW" 0 (some (tempFileName env unique)),
       Call.CreateFile (tempFileName env unique) (tempHandle env unique),
       Call.WriteFile (tempHandle env unique) env.payload.length (bytesWritten env),
       Call.CloseHandle (tempHandle env unique)] := by
  simp [traceClose, traceStart]

/-- C9: over the calls of a run: when `GetTempFileName` fails no handle is opened or
closed; whenever `CreateFile` returned a handle, it is the only one and `CloseHandle` is
called exactly once, on that handle; and every `CreateProcess` call has that `CloseHandle`
call before it. -/
theorem handle_closed_once (env : Env) (lpCmdLine : String) (fs0 : FileSystem) (e0 : Nat) :
    (tempNameResult (_tWinMain env lpCmdLine (State.init fs0 e0)).2.calls = some none →
      opened (_tWinMain env lpCmdLine (State.init fs0 e0)).2.calls = [] ∧ closed (_tWinMain env lpCmdLine (State.init fs0 e0)).2.calls = []) ∧
    (∀ hTempFile ∈ opened (_tWinMain env lpCmdLine (State.init fs0 e0)).2.calls,
      opened (_tWinMain env lpCmdLine (State.init fs0 e0)).2.calls = [hTempFile] ∧ closed (_tWinMain env lpCmdLine (State.init fs0 e0)).2.calls = [hTempFile]) ∧
    (∀ pre post cmdLine result,
      (_tWinMain env lpCmdLine (State.init fs0 e0)).2.calls = pre ++ Call.CreateProcess cmdLine result :: post →
      ∃ hTempFile, opened (_tWinMain env lpCmdLine (State.init fs0 e0)).2.calls = [hTempFile] ∧ Call.CloseHandle hTempFile ∈ pre) := by
  rcases run_cases env lpCmdLine fs0 e0 with ⟨hT, hr⟩ | ⟨u, hT, hW, hr⟩ | ⟨u, hT, hW, hS, hr⟩ |
    ⟨u, hT, hW, hS, hP, hr⟩ | ⟨u, hT, hW, hS, hP, hr⟩
  · rw [hr]
    refine ⟨fun _ => ?_, ?_, ?_⟩
    · simp [endTempNameFailed, State.calls, traceStart, opened, closed]
    · simp [endTempNameFailed, State.calls, traceStart, opened]
    · intro pre post cmdLine result hsplit
      have hmem : Call.CreateProcess cmdLine result ∈ (endTempNameFailed env fs0 e0).2.calls := by
        rw [hsplit]; simp
      simp [endTempNameFailed, State.calls, traceStart] at hmem
  · rw [hr]
    refine ⟨fun hn => ?_, ?_, ?_⟩
    · simp [endWriteFailed, State.calls, traceStart, traceClose, tempNameResult] at hn
    · simp [endWriteFailed, State.calls, traceStart, traceClose, opened, closed]
    · intro pre post cmdLine result hsplit
      have hmem : Call.CreateProcess cmdLine result ∈ (endWriteFailed env fs0 e0 u).2.calls := by
        rw [hsplit]; simp
      simp [endWriteFailed, State.calls, traceStart, traceClose] at hmem
  · rw [hr]
    refine ⟨fun hn => ?_, ?_, ?_⟩
    · simp [endOverflow, State.calls, traceStart, traceClose, tempNameResult] at hn
    · simp [endOverflow, State.calls, traceStart, traceClose, opened, closed]
    · intro pre post cmdLine result hsplit
      have hmem : Call.CreateProcess cmdLine result ∈ (endOverflow env fs0 e0 u).2.calls := by
        rw [hsplit]; simp
      simp [endOverflow, State.calls, traceStart, traceClose] at hmem
  · rw [hr]
    refine ⟨fun hn => ?_, ?_, ?_⟩
    · simp [endSpawnFailed, State.calls, traceStart, traceClose, tempNameResult] at hn
    · simp [endSpawnFailed, State.calls, traceStart, traceClose, opened, closed]
    · intro pre post cmdLine result hsplit
      refine ⟨tempHandle env u, ?_, ?_⟩
      · simp [endSpawnFailed, State.calls, traceStart, traceClose, opened]
      · simp only [endSpawnFailed, State.calls, List.map_append, calls_traceClose] at hsplit
        obtain ⟨t, ht⟩ := split_after _ _ pre post _ (by simp) hsplit
        rw [ht]
        simp
  · rw [hr]
    refine ⟨fun hn => ?_, ?_, ?_⟩
    · simp [endSpawned, State.calls, traceStart, traceClose, tempNameResult] at hn
    · simp [endSpawned, State.calls, traceStart, traceClose, opened, closed]
    · intro pre post cmdLine result hsplit
      refine ⟨tempHandle env u, ?_, ?_⟩
      · simp [endSpawned, State.calls, traceStart, traceClose, opened]
      · simp only [endSpawned, State.calls, List.map_append, calls_traceClose] at hsplit
        obtain ⟨t, ht⟩ := split_after _ _ pre post _ (by simp) hsplit
        rw [ht]
        simp

/-! ## The bound on the command line -/

theorem commandLine_length (path args : String) :
    (commandLine path args).length = "msiexec /i ".length + path.length + 1 + args.length := by
  simp [commandLine, String.length_append]
  rfl

/-- C10: every command handed to `CreateProcess` has at most 259 characters; and when
the intended command, made of `msiexec /i `, the generated path `p`, one space and the
arguments, has 260 characters or more, `CreateProcess` is not called at all, so no prefix of
the intended command is spawned. -/
theorem command_bound (env : Env) (lpCmdLine : String) (fs0 : FileSystem) (e0 : Nat) :
    (∀ c ∈ spawned (_tWinMain env lpCmdLine (State.init fs0 e0)).2.calls, c.length ≤ 259) ∧
    (∀ p, tempNameResult (_tWinMain env lpCmdLine (State.init fs0 e0)).2.calls = some (some p) →
      260 ≤ "msiexec /i ".length + p.length + 1 + lpCmdLine.length →
      spawned (_tWinMain env lpCmdLine (State.init fs0 e0)).2.calls = [] ∧
      ∀ c ∈ spawned (_tWinMain env lpCmdLine (State.init fs0 e0)).2.calls,
        ¬ c.data <+: ("msiexec /i " ++ p ++ " " ++ lpCmdLine).data) := by
  rcases run_cases env lpCmdLine fs0 e0 with ⟨hT, hr⟩ | ⟨u, hT, hW, hr⟩ | ⟨u, hT, hW, hS, hr⟩ |
    ⟨u, hT, hW, hS, hP, hr⟩ | ⟨u, hT, hW, hS, hP, hr⟩
  · rw [hr]
    simp [endTempNameFailed, State.calls, traceStart, spawned, tempNameResult]
  · rw [hr]
    simp [endWriteFailed, State.calls, traceStart, traceClose, spawned]
  · rw [hr]
    simp [endOverflow, State.calls, traceStart, traceClose, spawned]
  · rw [hr]
    have hlen := commandLine_length (tempFileName env u) lpCmdLine
    simp only [MAX_PATH] at hS
    refine ⟨?_, ?_⟩
    · simp [endSpawnFailed, State.calls, traceStart, traceClose, spawned]
      omega
    · intro p hp hbig
      simp [endSpawnFailed, State.calls, traceStart, traceClose, tempNameResult] at hp
      subst hp
      omega
  · rw [hr]
    have hlen := commandLine_length (tempFileName env u) lpCmdLine
    simp only [MAX_PATH] at hS
    refine ⟨?_, ?_⟩
    · simp [endSpawned, State.calls, traceStart, traceClose, spawned]
      omega
    · intro p hp hbig
      simp [endSpawned, State.calls, traceStart, traceClose, tempNameResult] at hp
      subst hp
      omega

/-! ## The error code in the dialog -/

theorem ShowMessage_small_code (lpText lpCaption : String) (e : Nat) (s : State)
    (he : e < 2 ^ 31) :
    ShowMessage lpText lpCaption e s
      = some (MessageBox (lpText ++ "\r\n" ++ ("Error code: " ++ Nat.repr e)) lpCaption s) := by
  rw [ShowMessage_eq]
  have h1 : e % 2 ^ 32 = e := Nat.mod_eq_of_lt (by omega)
  have h2 : asInt32 e = Int.ofNat e := by
    unfold asInt32
    rw [h1, if_pos he]
  rw [h2]
  rfl

/-- C6, at the error code 2147483648: `ShowMessage` shows one dialog titled `DeviceHive`
whose text ends in `Error code: -2147483648`, because `%d` reads the `DWORD` as a signed
`int`, while the decimal representation of the code is `2147483648`; and a run of
`_tWinMain` in which `GetTempFileName` leaves the last-error value 2147942405 shows
`Error code: -2147024891`. -/
theorem ShowMessage_high_code :
    (ShowMessage ERRMSG_WRITETEMP ERRMSG_ERROR 2147483648 (State.init emptyFS 0)).map
        (fun s => dialogs s.calls)
      = some [("Failed to write to temporary file.\r\nError code: -2147483648", "DeviceHive")] ∧
    Nat.repr 2147483648 = "2147483648" ∧
    dialogs (_tWinMain envHighCode "" (State.init emptyFS 0)).2.calls
      = [("Failed to get temporary file name.\r\nError code: -2147024891", "DeviceHive")] := by
  decide

theorem dialog_code_write_branch (env : Env) (lpCmdLine : String) (fs0 : FileSystem) (e0 : Nat)
    (unique : String) (d : Nat) (hT : env.tempFile = some unique)
    (hW : env.payload.length ≠ bytesWritten env) (hD : env.errDeleteFile = some d) :
    dialogs (_tWinMain env lpCmdLine (State.init fs0 e0)).2.calls
      = [(dialogText ERRMSG_WRITETEMP (d % 2 ^ 32), ERRMSG_ERROR)] := by
  rw [run_write_failed env lpCmdLine fs0 e0 unique hT hW]
  simp [endWriteFailed, State.calls, traceStart, traceClose, dialogs, errWriteBranch, hD]

theorem dialog_code_spawn_branch (env : Env) (lpCmdLine : String) (fs0 : FileSystem) (e0 : Nat)
    (unique : String) (d : Nat) (hT : env.tempFile = some unique)
    (hW : env.payload.length = bytesWritten env)
    (hS : (commandLine (tempFileName env unique) lpCmdLine).length + 1 ≤ MAX_PATH)
    (hP : env.createProcess = false) (hD : env.errDeleteFile = some d) :
    dialogs (_tWinMain env lpCmdLine (State.init fs0 e0)).2.calls
      = [(dialogText ERRMSG_RUNPARAMS (d % 2 ^ 32), ERRMSG_ERROR)] := by
  rw [run_spawn_failed env lpCmdLine fs0 e0 unique hT hW hS hP]
  simp [endSpawnFailed, State.calls, traceStart, traceClose, dialogs, errSpawnBranch, hD]

/-- C7, on a full disk: `WriteFile` takes 4 of 10 bytes and sets the last-error value 112,
then `DeleteFile` fails on the empty path and sets 3; the calls made are the ones listed and
the dialog shows the code 3, the one `DeleteFile` set. -/
theorem diskFull_dialog_code :
    envDiskFull.errWriteFile = some 112 ∧ envDiskFull.errDeleteFile = some 3 ∧
    (_tWinMain envDiskFull "" (State.init emptyFS 0)).2.calls =
      [Call.FindResource, Call.LoadResource, Call.LockResource, Call.SizeofResource 10,
       Call.GetTempPath "C:\\Temp\\",
       Call.GetTempFileName "C:\\Temp\\" "NEW" 0 (some "C:\\Temp\\NEW1A2B.tmp"),
       Call.CreateFile "C:\\Temp\\NEW1A2B.tmp" (some "C:\\Temp\\NEW1A2B.tmp"),
       Call.WriteFile (some "C:\\Temp\\NEW1A2B.tmp") 10 4,
       Call.CloseHandle (some "C:\\Temp\\NEW1A2B.tmp"),
       Call.DeleteFile "",
       Call.GetLastError 3,
       Call.MessageBox "Failed to write to temporary file.\r\nError code: 3" "DeviceHive"] := by
  decide

/-! ## The theorems at concrete runs -/

theorem exit_status_witness :
    (_tWinMain envOk "" (State.init emptyFS 0)).1 = Outcome.returned 0 ∧
    (((0 : Int) = 0 ↔
      ((∃ name, tempNameResult (_tWinMain envOk "" (State.init emptyFS 0)).2.calls
          = some (some name)) ∧
        writeResult (_tWinMain envOk "" (State.init emptyFS 0)).2.calls
          = some envOk.payload.length ∧
        spawnResult (_tWinMain envOk "" (State.init emptyFS 0)).2.calls = some true)) ∧
    ((0 : Int) ≠ 0 → (0 : Int) = 1)) :=
  ⟨by decide, exit_status envOk "" emptyFS 0 0 (by decide)⟩

theorem tempName_failure_witness :
    tempNameResult (_tWinMain envNoTempName "" (State.init emptyFS 0)).2.calls = some none ∧
    (_tWinMain envNoTempName "" (State.init emptyFS 0)).1 = Outcome.returned 1 :=
  ⟨by decide, (tempName_failure envNoTempName "" emptyFS 0 (by decide)).1⟩

theorem write_failure_witness :
    writeResult (_tWinMain envDiskFull "" (State.init emptyFS 0)).2.calls = some 4 ∧
    4 ≠ envDiskFull.payload.length ∧
    (_tWinMain envDiskFull "" (State.init emptyFS 0)).1 = Outcome.returned 1 :=
  ⟨by decide, by decide, (write_failure envDiskFull "" emptyFS 0 4 (by decide) (by decide)).1⟩

theorem spawn_failure_witness :
    spawnResult (_tWinMain envSpawnFails "/qn" (State.init emptyFS 0)).2.calls = some false ∧
    (_tWinMain envSpawnFails "/qn" (State.init emptyFS 0)).1 = Outcome.returned 1 :=
  ⟨by decide, (spawn_failure envSpawnFails "/qn" emptyFS 0 (by decide)).1⟩

theorem command_line_witness :
    "msiexec /i C:\\Temp\\NEW1A2B.tmp " ∈ spawned (_tWinMain envOk "" (State.init emptyFS 0)).2.calls ∧
    ∃ p, tempNameResult (_tWinMain envOk "" (State.init emptyFS 0)).2.calls = some (some p) ∧
      "msiexec /i C:\\Temp\\NEW1A2B.tmp " = "msiexec /i " ++ p ++ " " ++ "" ∧
      spawned (_tWinMain envOk "" (State.init emptyFS 0)).2.calls
        = ["msiexec /i C:\\Temp\\NEW1A2B.tmp "] ∧
      ("" = "" → "msiexec /i C:\\Temp\\NEW1A2B.tmp " = "msiexec /i " ++ p ++ " ") ∧
      (spawnResult (_tWinMain envOk "" (State.init emptyFS 0)).2.calls = some true →
        (_tWinMain envOk "" (State.init emptyFS 0)).1 = Outcome.returned 0 ∧
        dialogs (_tWinMain envOk "" (State.init emptyFS 0)).2.calls = []) :=
  ⟨by decide, command_line envOk "" emptyFS 0 "msiexec /i C:\\Temp\\NEW1A2B.tmp " (by decide)⟩

theorem success_file_witness :
    (_tWinMain envOk "" (State.init emptyFS 0)).1 = Outcome.returned 0 ∧
    ∃ unique,
      (_tWinMain envOk "" (State.init emptyFS 0)).2.fs (envOk.tempPath ++ "NEW" ++ unique)
        = some envOk.payload :=
  ⟨by decide,
    let ⟨unique, _, _, _, _, _, hfs, _⟩ := success_file envOk "" emptyFS 0 (by decide)
    ⟨unique, hfs⟩⟩

theorem handle_closed_once_witness :
    (_tWinMain envOk "" (State.init emptyFS 0)).2.calls =
      [Call.FindResource, Call.LoadResource, Call.LockResource, Call.SizeofResource 10,
       Call.GetTempPath "C:\\Temp\\",
       Call.GetTempFileName "C:\\Temp\\" "NEW" 0 (some "C:\\Temp\\NEW1A2B.tmp"),
       Call.CreateFile "C:\\Temp\\NEW1A2B.tmp" (some "C:\\Temp\\NEW1A2B.tmp"),
       Call.WriteFile (some "C:\\Temp\\NEW1A2B.tmp") 10 10,
       Call.CloseHandle (some "C:\\Temp\\NEW1A2B.tmp")] ++
      Call.CreateProcess "msiexec /i C:\\Temp\\NEW1A2B.tmp " true :: [] ∧
    ∃ hTempFile, opened (_tWinMain envOk "" (State.init emptyFS 0)).2.calls = [hTempFile] ∧
      Call.CloseHandle hTempFile ∈
        [Call.FindResource, Call.LoadResource, Call.LockResource, Call.SizeofResource 10,
         Call.GetTempPath "C:\\Temp\\",
         Call.GetTempFileName "C:\\Temp\\" "NEW" 0 (some "C:\\Temp\\NEW1A2B.tmp"),
         Call.CreateFile "C:\\Temp\\NEW1A2B.tmp" (some "C:\\Temp\\NEW1A2B.tmp"),
         Call.WriteFile (some "C:\\Temp\\NEW1A2B.tmp") 10 10,
         Call.CloseHandle (some "C:\\Temp\\NEW1A2B.tmp")] :=
  ⟨by decide,
    (handle_closed_once envOk "" emptyFS 0).2.2
      [Call.FindResource, Call.LoadResource, Call.LockResource, Call.SizeofResource 10,
       Call.GetTempPath "C:\\Temp\\",
       Call.GetTempFileName "C:\\Temp\\" "NEW" 0 (some "C:\\Temp\\NEW1A2B.tmp"),
       Call.CreateFile "C:\\Temp\\NEW1A2B.tmp" (some "C:\\Temp\\NEW1A2B.tmp"),
       Call.WriteFile (some "C:\\Temp\\NEW1A2B.tmp") 10 10,
       Call.CloseHandle (some "C:\\Temp\\NEW1A2B.tmp")]
      [] "msiexec /i C:\\Temp\\NEW1A2B.tmp " true (by decide)⟩

set_option maxRecDepth 100000 in
theorem command_bound_witness :
    tempNameResult (_tWinMain envOk longArgs (State.init emptyFS 0)).2.calls
      = some (some "C:\\Temp\\NEW1A2B.tmp") ∧
    260 ≤ "msiexec /i ".length + "C:\\Temp\\NEW1A2B.tmp".length + 1 + longArgs.length ∧
    spawned (_tWinMain envOk longArgs (State.init emptyFS 0)).2.calls = [] :=
  ⟨by decide, by decide,
    ((command_bound envOk longArgs emptyFS 0).2 "C:\\Temp\\NEW1A2B.tmp" (by decide)
      (by decide)).1⟩

end Setup
